import Mathlib

/-!
Verification development for the `Scheduler` repository (file
`src/event_packet.py`).  The Python module defines a single class,
`EventPacket`, holding a calendar event: a `begin`/`end` timestamp pair,
a `summary`, a `(sample_interval_utc, timezone)` pair and a `location`.
The shallow embedding below translates, construct by construct, the
constructor (`__init__`), the alternative constructors (`from_string`,
`from_dict`, `from_freebusy`), comparison (`__eq__`, `__lt__`), timezone
offset resolution (`utc_offset`), wire formatting
(`google_calendar_format`, `form_submit_body`) and duration
(`time_elapsed`).  Python exceptions are modelled with an explicit error
type, and fallible operations return `Except`.

Library behaviour that the module calls into (the CPython `datetime`
strptime/strftime machinery and the `pytz` zone database) is embedded
explicitly; each such definition carries a doc comment saying exactly
which library behaviour it models.
-/

namespace Scheduler

/-- A naive `datetime.datetime` value at second resolution.  Every
datetime the module manipulates is produced by
`datetime.datetime.strptime(s, "%Y-%m-%dT%H:%M:%S")`, which always
yields `microsecond = 0`, so sub-second fields are omitted. -/
structure DateTime where
  year : Nat
  month : Nat
  day : Nat
  hour : Nat
  minute : Nat
  second : Nat
deriving DecidableEq

/-- Gregorian leap-year test, as in CPython `datetime._is_leap`. -/
def isLeap (y : Nat) : Bool :=
  (y % 4 == 0 && y % 100 != 0) || y % 400 == 0

/-- Number of days in a month, as in CPython `datetime._days_in_month`. -/
def daysInMonth (y m : Nat) : Nat :=
  match m with
  | 1 => 31 | 2 => if isLeap y then 29 else 28 | 3 => 31
  | 4 => 30 | 5 => 31 | 6 => 30 | 7 => 31 | 8 => 31
  | 9 => 30 | 10 => 31 | 11 => 30 | 12 => 31
  | _ => 0

/-- Days in the months strictly before month `m` of year `y`, as in
CPython `datetime._days_before_month`. -/
def daysBeforeMonth (y m : Nat) : Nat :=
  let l := if isLeap y then 1 else 0
  match m with
  | 1 => 0 | 2 => 31 | 3 => 59 + l | 4 => 90 + l | 5 => 120 + l
  | 6 => 151 + l | 7 => 181 + l | 8 => 212 + l | 9 => 243 + l
  | 10 => 273 + l | 11 => 304 + l | 12 => 334 + l
  | _ => 365 + l

/-- Days in the years strictly before year `y`, as in CPython
`datetime._days_before_year`. -/
def daysBeforeYear (y : Nat) : Nat :=
  let n := y - 1
  n * 365 + n / 4 - n / 100 + n / 400

/-- Proleptic Gregorian ordinal of a date (`date.toordinal` in CPython:
January 1 of year 1 is day 1). -/
def toOrdinal (y m d : Nat) : Nat :=
  daysBeforeYear y + daysBeforeMonth y m + d

/-- Seconds of a naive datetime counted from the epoch of
`toOrdinal` (day 1 starts at second 86400).  Used to compare and
subtract datetimes the way `datetime.__sub__` does (whole days via
`toordinal`, plus the seconds within the day). -/
def dtSeconds (t : DateTime) : Nat :=
  toOrdinal t.year t.month t.day * 86400
    + t.hour * 3600 + t.minute * 60 + t.second

/-- Weekday of a date, 0 = Monday .. 6 = Sunday, as `date.weekday`. -/
def weekday (y m d : Nat) : Nat :=
  (toOrdinal y m d + 6) % 7

/-- Day of month (1..7) of the first weekday `w` (0 = Monday) in month
`m` of year `y`. -/
def firstWeekdayDay (y m w : Nat) : Nat :=
  1 + (w + 7 - weekday y m 1) % 7

/-- Day of March on which the United States daylight-saving period
begins (second Sunday of March, post-2007 rule). -/
def secondSundayMarch (y : Nat) : Nat :=
  firstWeekdayDay y 3 6 + 7

/-- Day of November on which the United States daylight-saving period
ends (first Sunday of November, post-2007 rule). -/
def firstSundayNovember (y : Nat) : Nat :=
  firstWeekdayDay y 11 6

/-- Range validity of a datetime, as enforced by the
`datetime.datetime` constructor (`year` 1..9999, valid month, day within
the month, time fields in range). -/
def DateTime.validB (t : DateTime) : Bool :=
  decide (1 ≤ t.year) && decide (t.year ≤ 9999) &&
  decide (1 ≤ t.month) && decide (t.month ≤ 12) &&
  decide (1 ≤ t.day) && decide (t.day ≤ daysInMonth t.year t.month) &&
  decide (t.hour < 24) && decide (t.minute < 60) && decide (t.second < 60)

/-- Model of the daylight-saving predicate of the IANA zone
`America/Los_Angeles` as pytz answers it for a naive local datetime
under `localize`'s default `is_dst=False`: daylight time from the
second Sunday of March at 03:00 wall time (the nonexistent hour
02:00-02:59 resolves to standard time) until the first Sunday of
November at 01:00 wall time (the ambiguous hour 01:00-01:59 resolves to
standard time).  The post-2007 United States rule is applied to every
year. -/
def laDst (t : DateTime) : Bool :=
  decide (dtSeconds ⟨t.year, 3, secondSundayMarch t.year, 3, 0, 0⟩ ≤ dtSeconds t) &&
  decide (dtSeconds t < dtSeconds ⟨t.year, 11, firstSundayNovember t.year, 1, 0, 0⟩)

/-- Model of the pytz zone database restricted to the zones exercised
here: the UTC offset, in minutes east of UTC, that
`pytz.timezone(zone).localize(t)` attaches to the naive datetime `t`;
`none` models `pytz.UnknownTimeZoneError`. -/
def tzUtcOffsetMinutes (zone : String) (t : DateTime) : Option Int :=
  if zone = "America/Los_Angeles" then
    some (if laDst t then -420 else -480)
  else if zone = "UTC" then some 0
  else if zone = "Asia/Tokyo" then some 540
  else none

/-- Decimal digit value of a character, `none` on a non-digit. -/
def digitVal (c : Char) : Option Nat :=
  if c.isDigit then some (c.toNat - 48) else none

/-- Two-digit-zero-padded decimal rendering, as `%02d`. -/
def pad2 (n : Nat) : String :=
  if n < 10 then "0" ++ Nat.repr n else Nat.repr n

/-- Four-digit-zero-padded decimal rendering, as `%04d` (the rendering
CPython `strftime` uses for `%Y` on 1..9999). -/
def pad4 (n : Nat) : String :=
  if n < 10 then "000" ++ Nat.repr n
  else if n < 100 then "00" ++ Nat.repr n
  else if n < 1000 then "0" ++ Nat.repr n
  else Nat.repr n

/-- Model of `strftime` for the literal format `%z` on an aware
datetime whose offset is a whole number of `mins` minutes: sign
followed by two hour digits and two minute digits, `+0000` for offset
zero. -/
def strftimeZ (mins : Int) : String :=
  (if mins < 0 then "-" else "+")
    ++ (pad2 (mins.natAbs / 60) ++ pad2 (mins.natAbs % 60))

/-- Model of `strftime` on the format `"%Y-%m-%dT%H:%M:%S" + suffix`
where `suffix` contains no percent sign (the f-string at line 178 of
the source splices the resolved offset into the format; `strftime`
copies it through verbatim). -/
def strftimeISO (t : DateTime) (suffix : String) : String :=
  pad4 t.year ++ "-" ++ pad2 t.month ++ "-" ++ pad2 t.day ++ "T"
    ++ pad2 t.hour ++ ":" ++ pad2 t.minute ++ ":" ++ pad2 t.second ++ suffix

/-- Parse alternation for one numeric `strptime` field: first the
two-digit branches (accepted when `valid2` holds of the two digit
values), then the one-digit branch (accepted when `valid1` holds), in
the priority order of the CPython `_strptime` regular expressions.
Returns every parse, highest priority first. -/
def parseTwoOne (valid2 : Nat → Nat → Bool) (valid1 : Nat → Bool)
    (cs : List Char) : List (Nat × List Char) :=
  (match cs with
   | a :: b :: rest =>
     match digitVal a, digitVal b with
     | some x, some y => if valid2 x y then [(x * 10 + y, rest)] else []
     | _, _ => []
   | _ => []) ++
  (match cs with
   | a :: rest =>
     match digitVal a with
     | some x => if valid1 x then [(x, rest)] else []
     | none => []
   | [] => [])

/-- Parse of the `%Y` field: exactly four digits. -/
def parseYear4 : List Char → List (Nat × List Char)
  | a :: b :: c :: d :: rest =>
    match digitVal a, digitVal b, digitVal c, digitVal d with
    | some w, some x, some y, some z => [(w * 1000 + x * 100 + y * 10 + z, rest)]
    | _, _, _, _ => []
  | _ => []

/-- Parse of a literal character of the format (case-insensitively, as
CPython `_strptime` compiles its pattern with `IGNORECASE`). -/
def parseLit (ch : Char) : List Char → List (List Char)
  | c :: rest => if c.toLower = ch.toLower then [rest] else []
  | [] => []

/-- All full regex-level parses of a string against the pattern that
CPython `_strptime` builds for `"%Y-%m-%dT%H:%M:%S"`:
`%Y` is four digits, `%m` is `1[0-2]|0[1-9]|[1-9]`, `%d` is
`3[01]|[12]\d|0[1-9]|[1-9]`, `%H` is `2[0-3]|[0-1]\d|\d`, `%M` is
`[0-5]\d|\d`, `%S` is `6[0-1]|[0-5]\d|\d`, and the whole input must be
consumed.  Parses are listed in backtracking priority order. -/
def strptimeParses (s : String) : List DateTime :=
  (parseYear4 s.data).flatMap fun yr =>
  (parseLit '-' yr.2).flatMap fun r2 =>
  (parseTwoOne (fun x y => (x == 1 && decide (y ≤ 2)) || (x == 0 && decide (1 ≤ y)))
    (fun x => decide (1 ≤ x)) r2).flatMap fun mo =>
  (parseLit '-' mo.2).flatMap fun r4 =>
  (parseTwoOne (fun x y => (x == 3 && decide (y ≤ 1)) || x == 1 || x == 2 || (x == 0 && decide (1 ≤ y)))
    (fun x => decide (1 ≤ x)) r4).flatMap fun dy =>
  (parseLit 'T' dy.2).flatMap fun r6 =>
  (parseTwoOne (fun x y => (x == 2 && decide (y ≤ 3)) || decide (x ≤ 1))
    (fun _ => true) r6).flatMap fun hr =>
  (parseLit ':' hr.2).flatMap fun r8 =>
  (parseTwoOne (fun x _ => decide (x ≤ 5)) (fun _ => true) r8).flatMap fun mn =>
  (parseLit ':' mn.2).flatMap fun r10 =>
  (parseTwoOne (fun x y => (x == 6 && decide (y ≤ 1)) || decide (x ≤ 5))
    (fun _ => true) r10).flatMap fun sc =>
  if sc.2.isEmpty then [⟨yr.1, mo.1, dy.1, hr.1, mn.1, sc.1⟩] else []

/-- Model of `datetime.datetime.strptime(s, "%Y-%m-%dT%H:%M:%S")`:
the first regex-level parse, validated by the `datetime` constructor.
`none` collapses the two CPython failure modes (the `ValueError` for a
pattern mismatch and the `ValueError` the `datetime` constructor raises
for an out-of-range date such as February 30). -/
def strptime (s : String) : Option DateTime :=
  match strptimeParses s with
  | [] => none
  | t :: _ => if t.validB then some t else none

/-- The Python exceptions the module can raise, by CPython class.  The
spec's taxonomy maps onto these as follows: `InvalidArgument` and
`ParseError` are the `ValueError`s raised at lines 44, 65 and inside
`strptime`; `TypeMismatch` is the `ValueError` raised at lines 119 and
138; `FormatError` is the `ValueError` raised at line 199.  The message
carried by `valueError` is the one the source builds (empty for a bare
`raise ValueError`). -/
inductive PyError where
  | valueError (msg : String)
  | typeError (msg : String)
  | attributeError (attr : String)
  | keyError (key : String)
deriving DecidableEq

mutual

/-- A Python value, restricted to the shapes that flow through the
module: datetimes, strings, integers, tuples, lists, string-keyed
dicts, and the lazy `map` object built at line 68 of the source
(`map(lambda date_str: datetime.datetime.strptime(date_str,
"%Y-%m-%dT%H:%M:%S"), interval)`), which `mapStrptime` records
unevaluated together with its argument. -/
inductive PyVal where
  | dt (d : DateTime)
  | str (s : String)
  | int (n : Int)
  | tuple (xs : PyList)
  | list (xs : PyList)
  | dict (entries : PyDict)
  | mapStrptime (arg : PyVal)
deriving DecidableEq

/-- A sequence of Python values (the payload of a tuple or list). -/
inductive PyList where
  | nil
  | cons (hd : PyVal) (tl : PyList)
deriving DecidableEq

/-- A string-keyed Python mapping, as an ordered association list
(insertion order, first occurrence of a key wins on lookup, matching a
Python `dict` whose keys are unique). -/
inductive PyDict where
  | nil
  | cons (key : String) (val : PyVal) (tl : PyDict)
deriving DecidableEq

end

/-- Converts a Lean list of values into a `PyList`. -/
def PyList.ofList : List PyVal → PyList
  | [] => .nil
  | x :: xs => .cons x (PyList.ofList xs)

/-- Length of a `PyList`. -/
def PyList.length : PyList → Nat
  | .nil => 0
  | .cons _ tl => 1 + PyList.length tl

/-- Converts a Lean association list into a `PyDict`. -/
def PyDict.ofList : List (String × PyVal) → PyDict
  | [] => .nil
  | (k, v) :: xs => .cons k v (PyDict.ofList xs)

/-- Appends two dicts (used to state that trailing extra keys are
ignored; with the distinguished keys in front this matches a Python
dict literal whose extra keys differ from them). -/
def PyDict.append : PyDict → PyDict → PyDict
  | .nil, d => d
  | .cons k v tl, d => .cons k v (PyDict.append tl d)

/-- First value stored under `key`, scanning in insertion order. -/
def PyDict.lookup : PyDict → String → Option PyVal
  | .nil, _ => none
  | .cons k v tl, key => if key = k then some v else PyDict.lookup tl key

/-- Keys of a dict, in order. -/
def PyDict.keys : PyDict → List String
  | .nil => []
  | .cons k _ tl => k :: PyDict.keys tl

/-- Whether a value is a Python `tuple` (`isinstance(v, tuple)`). -/
def PyVal.isTuple : PyVal → Bool
  | .tuple _ => true
  | _ => false

/-- Whether a value is a Python `str` (`isinstance(v, str)`). -/
def PyVal.isStr : PyVal → Bool
  | .str _ => true
  | _ => false

/-- Whether a value is a Python `dict` (`isinstance(v, typing.Dict)`). -/
def PyVal.isDict : PyVal → Bool
  | .dict _ => true
  | _ => false

/-- Elements produced by iterating a value (`tuple` and `list` yield
their items, a `str` yields its characters as one-character strings, a
`dict` yields its keys); `none` models the `TypeError` raised when a
non-iterable is iterated.  The lazy `map` object is only ever iterated
through `unpack2` below, which handles it directly. -/
def pyIterElems : PyVal → Option (List PyVal)
  | .tuple xs => some (go xs)
  | .list xs => some (go xs)
  | .str s => some (s.data.map fun c => .str (String.mk [c]))
  | .dict entries => some ((PyDict.keys entries).map fun k => .str k)
  | _ => none
where
  /-- Lean-list view of a `PyList`. -/
  go : PyList → List PyVal
  | .nil => []
  | .cons x tl => x :: go tl

/-- `__getitem__` on a value: dict lookup with `KeyError` on a missing
key, `TypeError` on a non-dict (the module only ever subscripts
mappings with string keys). -/
def pyGetItem (v : PyVal) (key : String) : Except PyError PyVal :=
  match v with
  | .dict entries =>
    match entries.lookup key with
    | some x => .ok x
    | none => .error (.keyError key)
  | _ => .error (.typeError "object is not subscriptable")

/-- The `EventPacket` object: exactly the six attributes that
`__init__` assigns at lines 46-49 of the source.  `begin`, `end` and
`summary` hold whatever Python values were stored (`__init__` does not
coerce them); `end` is spelt `end_` because `end` is a Lean keyword. -/
structure EventPacket where
  begin : PyVal
  end_ : PyVal
  summary : PyVal
  sample_interval_utc : Bool
  timezone : String
  location : String
deriving DecidableEq

/-- An arbitrary Python value as seen by `__eq__`/`__lt__`: either
another `EventPacket` or any non-`EventPacket` value. -/
inductive PyTop where
  | val (v : PyVal)
  | event (e : EventPacket)
deriving DecidableEq

/-- Whether the right-hand operand is an `EventPacket`
(`isinstance(rhs, EventPacket)`). -/
def PyTop.isEvent : PyTop → Bool
  | .event _ => true
  | _ => false

/-- Rendering of `type(v)` as interpolated by the f-strings at lines
119 and 138 of the source. -/
def pyTypeName : PyTop → String
  | .event _ => "<class \x27event_packet.EventPacket\x27>"
  | .val (.dt _) => "<class \x27datetime.datetime\x27>"
  | .val (.str _) => "<class \x27str\x27>"
  | .val (.int _) => "<class \x27int\x27>"
  | .val (.tuple _) => "<class \x27tuple\x27>"
  | .val (.list _) => "<class \x27list\x27>"
  | .val (.dict _) => "<class \x27dict\x27>"
  | .val (.mapStrptime _) => "<class \x27map\x27>"

/-- The module-level constant `NAME` (line 12). -/
def NAME : String := "Jared"

/-- The module-level constant `GLOBAL_SUMMARY` (line 14), the f-string
`NAME + "'s Work"`. -/
def GLOBAL_SUMMARY : String := NAME ++ "\x27s Work"

/-- The module-level constant `DEFAULT_LOCATION` (line 15). -/
def DEFAULT_LOCATION : String := "800 N State College Blvd, Fullerton, CA 92831"

/-- The default of the `sample_interval_utc` parameter of `__init__`
(lines 22-23). -/
def default_sample_interval_utc : Bool × String := (false, "America/Los_Angeles")

/-- Application of the lambda at line 68 to one element of the mapped
iterable: `datetime.datetime.strptime(date_str, "%Y-%m-%dT%H:%M:%S")`.
On a non-string, `strptime` raises `TypeError`; on a string that does
not parse, `ValueError`. -/
def strptimeVal : PyVal → Except PyError PyVal
  | .str s =>
    match strptime s with
    | some d => .ok (.dt d)
    | none => .error (.valueError ("time data \x27" ++ s
        ++ "\x27 does not match format \x27%Y-%m-%dT%H:%M:%S\x27"))
  | _ => .error (.typeError "strptime() argument 1 must be str")

/-- Unpacking `a, b = m` where `m` is the lazy map object of line 68
over the elements `xs`: items are produced (and the lambda applied) one
at a time, so an error from the lambda on the first, second or third
element surfaces before the arity `ValueError` does, exactly as in
CPython iterable unpacking. -/
def unpackMapped (xs : List PyVal) : Except PyError (PyVal × PyVal) :=
  match xs with
  | [] => .error (.valueError "not enough values to unpack (expected 2, got 0)")
  | [a] => do
    let _ ← strptimeVal a
    .error (.valueError "not enough values to unpack (expected 2, got 1)")
  | [a, b] => do
    let x ← strptimeVal a
    let y ← strptimeVal b
    .ok (x, y)
  | a :: b :: c :: _ => do
    let _ ← strptimeVal a
    let _ ← strptimeVal b
    let _ ← strptimeVal c
    .error (.valueError "too many values to unpack (expected 2)")

/-- The statement `self.begin, self.end = interval` at line 46:
unpacking of an arbitrary value into exactly two targets.  A
non-iterable raises `TypeError`; an iterable of the wrong length raises
`ValueError`; the lazy map object evaluates its `strptime` calls while
being unpacked. -/
def unpack2 (v : PyVal) : Except PyError (PyVal × PyVal) :=
  match v with
  | .mapStrptime base =>
    match pyIterElems base with
    | none => .error (.typeError "cannot unpack non-iterable object")
    | some xs => unpackMapped xs
  | _ =>
    match pyIterElems v with
    | none => .error (.typeError "cannot unpack non-iterable object")
    | some xs =>
      match xs with
      | [] => .error (.valueError "not enough values to unpack (expected 2, got 0)")
      | [_] => .error (.valueError "not enough values to unpack (expected 2, got 1)")
      | [a, b] => .ok (a, b)
      | _ => .error (.valueError "too many values to unpack (expected 2)")

/-- The constructor `__init__` (lines 20-49).  Note the guard as
written in the source raises only when `interval` is not a tuple AND
`summary` is not a str: `if not(isinstance(interval, tuple) or
isinstance(summary, str)): raise ValueError`.  Then
`self.begin, self.end = interval` unpacks the interval, and the
attributes are assigned. -/
def EventPacket.init (interval : PyVal) (summary : PyVal)
    (sample_interval_utc : Bool × String) (location : String) :
    Except PyError EventPacket :=
  if !(interval.isTuple || summary.isStr) then .error (.valueError "")
  else
    match unpack2 interval with
    | .error e => .error e
    | .ok (b, en) =>
      .ok { begin := b, end_ := en, summary := summary,
            sample_interval_utc := sample_interval_utc.1,
            timezone := sample_interval_utc.2, location := location }

/-- The classmethod `from_string` (lines 51-71): the same (inverted)
guard as `__init__`, then `cls(map(lambda ..., interval), summary)` —
the `map` object is built (raising `TypeError` at once if `interval` is
not iterable) and handed, unevaluated, to `__init__` together with the
defaults for the remaining parameters. -/
def EventPacket.from_string (interval : PyVal) (summary : PyVal) :
    Except PyError EventPacket :=
  if !(interval.isTuple || summary.isStr) then .error (.valueError "")
  else if (pyIterElems interval).isNone then
    .error (.typeError "cannot unpack non-iterable object")
  else
    EventPacket.init (.mapStrptime interval) summary
      default_sample_interval_utc DEFAULT_LOCATION

/-- The classmethod `from_dict` (lines 73-89): after the
`isinstance(body, typing.Dict)` check, `operator.itemgetter("start",
"end")(body)` builds the tuple of the two values (looking `start` up
first, then `end`), `body['summary']` is read, and both are passed to
`from_string`.  Keys other than these three are never consulted. -/
def EventPacket.from_dict (body : PyVal) : Except PyError EventPacket :=
  if !body.isDict then .error (.valueError "")
  else do
    let s ← pyGetItem body "start"
    let e ← pyGetItem body "end"
    let summ ← pyGetItem body "summary"
    EventPacket.from_string (.tuple (.cons s (.cons e .nil))) summ

/-- The classmethod `from_freebusy` (lines 91-105).  The source calls
`EventPacket.from_string(response['start']['dateTime'],
response['end']['dateTime'], response['summary'])` — three positional
arguments to a classmethod accepting two, so after the five
subscript expressions are evaluated left to right the call itself
raises `TypeError`. -/
def EventPacket.from_freebusy (response : PyVal) : Except PyError EventPacket := do
  let startObj ← pyGetItem response "start"
  let _ ← pyGetItem startObj "dateTime"
  let endObj ← pyGetItem response "end"
  let _ ← pyGetItem endObj "dateTime"
  let _ ← pyGetItem response "summary"
  .error (.typeError "from_string() takes 3 positional arguments but 4 were given")

/-- The method `__eq__` (lines 107-124): a non-`EventPacket` right
operand raises `ValueError(f'Cannot compare EventPacket to
{type(rhs)}')`; otherwise the result is `(self.begin, self.end) ==
(rhs.begin, rhs.end) and self.summary == rhs.summary`. -/
def eventEq (self : EventPacket) (rhs : PyTop) : Except PyError Bool :=
  match rhs with
  | .event r =>
    .ok (decide ((self.begin, self.end_) = (r.begin, r.end_))
          && decide (self.summary = r.summary))
  | _ => .error (.valueError ("Cannot compare EventPacket to " ++ pyTypeName rhs))

/-- The method `__lt__` (lines 126-142): a non-`EventPacket` right
operand raises the same `ValueError` as `__eq__`; otherwise the method
returns `False` unconditionally (the interval-wise comparison at line
142 is commented out in the source). -/
def eventLt (_self : EventPacket) (rhs : PyTop) : Except PyError Bool :=
  match rhs with
  | .event _ => .ok false
  | _ => .error (.valueError ("Cannot compare EventPacket to " ++ pyTypeName rhs))

/-- The regular expression `re.compile("(\-\d{2})(\d{2})")` applied
with `.match` (anchored at the start, not required to span the whole
string): the input must begin with a minus sign followed by four
digits; the two capture groups are the sign with the first two digits,
and the last two digits. -/
def offsetRegexMatch (s : String) : Option (String × String) :=
  match s.data with
  | c0 :: rest =>
    if c0 = '-' then
      match rest with
      | a :: b :: c :: d :: _ =>
        if a.isDigit && b.isDigit && c.isDigit && d.isDigit then
          some (String.mk ['-', a, b], String.mk [c, d])
        else none
      | _ => none
    else none
  | [] => none

/-- The method `utc_offset` (lines 182-201): localize `time_object`
into the configured zone, render the offset with `strftime('%z')`,
match it against `(\-\d{2})(\d{2})`, and join the two groups with a
colon; a failed match raises `ValueError(f"Failed to parse UTC offset
of {current_offset}")`.  The `self.timezone` attribute is passed
explicitly as `timezone`. -/
def utc_offset (timezone : String) (time_object : DateTime) : Except PyError String :=
  match tzUtcOffsetMinutes timezone time_object with
  | none => .error (.keyError timezone)
  | some m =>
    let current_offset := strftimeZ m
    match offsetRegexMatch current_offset with
    | none => .error (.valueError ("Failed to parse UTC offset of " ++ current_offset))
    | some g => .ok (g.1 ++ ":" ++ g.2)

/-- Reading `self.interval` on an `EventPacket`.  `__init__` assigns
`begin`, `end`, `summary`, `sample_interval_utc`, `timezone` and
`location` (lines 46-49) and no method ever assigns an attribute named
`interval`, so the lookup raises `AttributeError`. -/
def EventPacket.interval (_ : EventPacket) : Except PyError (PyVal × PyVal) :=
  .error (.attributeError "interval")

/-- A call `v.strftime(fmt)` for the ISO format with a spliced suffix:
defined for datetimes; any other stored value lacks the method and
raises `AttributeError`. -/
def pyStrftimeISO (v : PyVal) (suffix : String) : Except PyError String :=
  match v with
  | .dt d => .ok (strftimeISO d suffix)
  | _ => .error (.attributeError "strftime")

/-- Localizing a stored value: `pytz`'s `localize` requires a naive
datetime argument. -/
def pyAsDatetime (v : PyVal) : Except PyError DateTime :=
  match v with
  | .dt d => .ok d
  | _ => .error (.typeError "localize() argument must be a datetime")

/-- The method `google_calendar_format` (lines 170-180): first
`self.utc_offset(self.interval[0])` — which begins by reading the
nonexistent `self.interval` attribute — then both `self.begin` and
`self.end` rendered through `strftime` with the offset appended. -/
def google_calendar_format (e : EventPacket) : Except PyError (List String) := do
  let iv ← e.interval
  let t0 ← pyAsDatetime iv.1
  let current_offset ← utc_offset e.timezone t0
  let b ← pyStrftimeISO e.begin current_offset
  let en ← pyStrftimeISO e.end_ current_offset
  .ok [b, en]

/-- Escaping of a string for a JSON string literal, for the characters
that can occur in the payloads at hand (backslash and double quote). -/
def jsonEscape (s : String) : String :=
  String.mk (s.data.flatMap fun c =>
    if c = '\\' then ['\\', '\\']
    else if c = Char.ofNat 34 then ['\\', Char.ofNat 34] else [c])

/-- Rendering of one stored value as a JSON scalar (`json.dumps`
serializes the `summary` and `location` payloads; the module only ever
stores strings or, through the unchecked constructor, other scalars). -/
def jsonScalar : PyVal → Except PyError String
  | .str s => .ok ("\"" ++ jsonEscape s ++ "\"")
  | .int n => .ok (toString n)
  | _ => .error (.typeError "Object is not JSON serializable")

/-- The exact text `json.dumps(collections.OrderedDict(body),
indent=4)` produces for the ordered body of `form_submit_body`:
keys `summary`, `start`, `end`, `location` in order, the `start`/`end`
objects holding `dateTime` then `timeZone`, four-space indentation. -/
def formBodyJson (summary startDT endDT timezone location : String) : String :=
  "\x7b\n    \"summary\": " ++ summary ++ ",\n    \"start\": \x7b\n        \"dateTime\": \""
    ++ startDT ++ "\",\n        \"timeZone\": \"" ++ jsonEscape timezone
    ++ "\"\n    \x7d,\n    \"end\": \x7b\n        \"dateTime\": \"" ++ endDT
    ++ "\",\n        \"timeZone\": \"" ++ jsonEscape timezone
    ++ "\"\n    \x7d,\n    \"location\": " ++ location ++ "\n\x7d"

/-- The method `form_submit_body` (lines 214-227): the body pairs are
built (calling `google_calendar_format` once for `start` and once for
`end`) and serialized with `json.dumps(..., indent=4)`.  The missing
parenthesis at line 220 of the source is treated as the evident typo
for `('summary', self.summary),`. -/
def form_submit_body (e : EventPacket) : Except PyError String := do
  let g1 ← google_calendar_format e
  let g2 ← google_calendar_format e
  let s ← jsonScalar e.summary
  let loc ← jsonScalar (.str e.location)
  .ok (formBodyJson s (g1.getD 0 "") (g2.getD 1 "") e.timezone loc)

/-- The property `time_elapsed` (lines 203-212):
`(self.end - self.begin).total_seconds()`.  `datetime.__sub__` forms
the timedelta from the ordinal-day difference and the
seconds-within-day difference; `total_seconds` flattens it to seconds
(a float in CPython, exact — hence an integer — because both operands
have `microsecond = 0` and the magnitudes involved are below 2^53).
Subtracting when either attribute is not a datetime raises
`TypeError`. -/
def time_elapsed (e : EventPacket) : Except PyError Int :=
  match e.end_, e.begin with
  | .dt b, .dt a =>
    .ok (((toOrdinal b.year b.month b.day : Int) - (toOrdinal a.year a.month a.day : Int)) * 86400
      + (((b.hour * 3600 + b.minute * 60 + b.second : Nat) : Int)
         - ((a.hour * 3600 + a.minute * 60 + a.second : Nat) : Int)))
  | _, _ => .error (.typeError "unsupported operand type(s) for -")

/-- Specification-side rendering of a UTC offset in minutes as a
colon-separated `±HH:MM` string (what the spec asks `utc_offset` to
return after reformatting `±HHMM`). -/
def offsetColonFormat (mins : Int) : String :=
  (if mins < 0 then "-" else "+")
    ++ pad2 (mins.natAbs / 60) ++ ":" ++ pad2 (mins.natAbs % 60)

/-- The event built by
`EventPacket.from_string(("2019-07-14T15:00:00", "2019-07-14T23:30:00"),
"FROM STRING")` (the constructor invocation shown, commented out, at
lines 246-249 of the source). -/
def evExample : EventPacket :=
  { begin := .dt ⟨2019, 7, 14, 15, 0, 0⟩,
    end_ := .dt ⟨2019, 7, 14, 23, 30, 0⟩,
    summary := .str "FROM STRING",
    sample_interval_utc := false,
    timezone := "America/Los_Angeles",
    location := DEFAULT_LOCATION }

/-- Sanity check tying `evExample` to the construction path. -/
theorem from_string_evExample :
    EventPacket.from_string
      (.tuple (.cons (.str "2019-07-14T15:00:00") (.cons (.str "2019-07-14T23:30:00") .nil)))
      (.str "FROM STRING") = .ok evExample := rfl

/-- Sanity check: the example timestamp parses to the expected
datetime, February 30 is rejected by the constructor, and a truncated
string fails the pattern. -/
theorem sanity_strptime :
    strptime "2019-07-14T15:00:00" = some ⟨2019, 7, 14, 15, 0, 0⟩ ∧
    strptime "2019-02-30T15:00:00" = none ∧
    strptime "2019-07-14T15:00" = none := ⟨rfl, rfl, rfl⟩

/-- Sanity check: the modelled 2019 United States daylight-saving
transitions fall on March 10 and November 3, with July inside and
January outside the daylight period. -/
theorem sanity_laDst :
    secondSundayMarch 2019 = 10 ∧ firstSundayNovember 2019 = 3 ∧
    laDst ⟨2019, 7, 14, 15, 0, 0⟩ = true ∧
    laDst ⟨2019, 1, 14, 15, 0, 0⟩ = false := ⟨rfl, rfl, rfl, rfl⟩

/-- A second event, chronologically before `evExample`, for exercising
the comparison operators. -/
def evExampleJan : EventPacket :=
  { begin := .dt ⟨2019, 1, 14, 15, 0, 0⟩,
    end_ := .dt ⟨2019, 1, 14, 23, 30, 0⟩,
    summary := .str "JANUARY",
    sample_interval_utc := false,
    timezone := "America/Los_Angeles",
    location := DEFAULT_LOCATION }

/-- Evaluation of `utc_offset` once the zone lookup has answered: the
remaining computation is the `%z` rendering and the regex match. -/
theorem utc_offset_eq (zone : String) (t : DateTime) (m : Int)
    (h : tzUtcOffsetMinutes zone t = some m) :
    utc_offset zone t =
      (match offsetRegexMatch (strftimeZ m) with
       | none => .error (.valueError ("Failed to parse UTC offset of " ++ strftimeZ m))
       | some g => .ok (g.1 ++ ":" ++ g.2)) := by
  unfold utc_offset
  rw [h]

/-- A string beginning with a plus sign never matches the offset
pattern `(\-\d{2})(\d{2})`. -/
theorem offsetRegexMatch_plus (r : String) : offsetRegexMatch ("+" ++ r) = none := by
  unfold offsetRegexMatch
  rw [show ("+" ++ r).data = '+' :: r.data by simp [String.data_append]]
  rfl

/-- The values the zone table can return for a strictly negative
offset. -/
theorem tz_neg_cases (zone : String) (t : DateTime) (m : Int)
    (h : tzUtcOffsetMinutes zone t = some m) (hm : m < 0) :
    zone = "America/Los_Angeles" ∧ (m = -420 ∨ m = -480) := by
  unfold tzUtcOffsetMinutes at h
  split_ifs at h with h1 h2 h3 h4
  · rw [Option.some.injEq] at h
    exact ⟨h1, Or.inl h.symm⟩
  · rw [Option.some.injEq] at h
    exact ⟨h1, Or.inr h.symm⟩
  · rw [Option.some.injEq] at h
    omega
  · rw [Option.some.injEq] at h
    omega

/-- Claim C1, counterexample: with the configured zone `"UTC"` (a zone
whose offset renders as `+0000`), `utc_offset` on a July date does not
return the reformatted offset `+00:00`; it raises the `ValueError` of
line 199 instead, so the claim's universally quantified statement is
false as written. -/
theorem utc_offset_utc_zone_counterexample :
    utc_offset "UTC" ⟨2019, 7, 14, 15, 0, 0⟩
      = .error (.valueError "Failed to parse UTC offset of +0000") := rfl

/-- Claim C1, amended: for every datetime and configured zone whose
UTC offset on that date is strictly negative, `utc_offset` returns the
offset reformatted from `-HHMM` into colon-separated `-HH:MM`; in
particular, for `"America/Los_Angeles"` it returns `"-07:00"` for a
July date and `"-08:00"` for a January date.  (Zones with non-negative
offsets raise instead — see the C10 theorem.) -/
theorem utc_offset_negative_offset_spec :
    (∀ (zone : String) (t : DateTime) (m : Int),
      tzUtcOffsetMinutes zone t = some m → m < 0 →
      utc_offset zone t = .ok (offsetColonFormat m)) ∧
    utc_offset "America/Los_Angeles" ⟨2019, 7, 14, 15, 0, 0⟩ = .ok "-07:00" ∧
    utc_offset "America/Los_Angeles" ⟨2019, 1, 14, 15, 0, 0⟩ = .ok "-08:00" := by
  refine ⟨?_, rfl, rfl⟩
  intro zone t m h hm
  rw [utc_offset_eq zone t m h]
  rcases (tz_neg_cases zone t m h hm).2 with rfl | rfl <;> rfl

/-- Claim C1, witness for the amended theorem at a concrete input. -/
theorem utc_offset_negative_offset_spec_witness :
    tzUtcOffsetMinutes "America/Los_Angeles" ⟨2021, 8, 1, 12, 0, 0⟩ = some (-420) ∧
    utc_offset "America/Los_Angeles" ⟨2021, 8, 1, 12, 0, 0⟩ = .ok (offsetColonFormat (-420)) :=
  ⟨rfl, utc_offset_negative_offset_spec.1 "America/Los_Angeles"
    ⟨2021, 8, 1, 12, 0, 0⟩ (-420) rfl (by decide)⟩

/-- Claim C2: `google_calendar_format` never reaches the rendering of
`begin` and `end` — its first statement reads the nonexistent
`self.interval` attribute (line 175), so on the concrete event of the
module's own demo code it raises `AttributeError` instead of returning
the two offset-suffixed strings. -/
theorem google_calendar_format_raises_attribute_error :
    google_calendar_format evExample = .error (.attributeError "interval") := rfl

/-- Claim C3: `form_submit_body` cannot serialize any event — its
first entry evaluation calls `google_calendar_format`, which raises
`AttributeError` on the nonexistent `self.interval` attribute, so no
submission body is ever produced and no round-trip through
`from_string` can occur. -/
theorem form_submit_body_raises_attribute_error :
    form_submit_body evExample = .error (.attributeError "interval") := rfl

/-- Claim C4: constructing from the flat mapping with keys `start`,
`end` and `summary` (in front of any further entries whose keys differ
from these three) gives exactly `from_string((s1, s2), t)`, errors
included; the extra keys are never consulted. -/
theorem from_dict_delegates_to_from_string :
    ∀ (s1 s2 t : String) (rest : PyDict),
      (∀ k ∈ rest.keys, k ≠ "start" ∧ k ≠ "end" ∧ k ≠ "summary") →
      EventPacket.from_dict (.dict (PyDict.append
          (.cons "start" (.str s1)
            (.cons "end" (.str s2)
              (.cons "summary" (.str t) .nil))) rest))
        = EventPacket.from_string
            (.tuple (.cons (.str s1) (.cons (.str s2) .nil))) (.str t) := by
  intro s1 s2 t rest _
  rfl

/-- Claim C4, witness: the delegation at a concrete mapping carrying
one extra key. -/
theorem from_dict_delegates_to_from_string_witness :
    EventPacket.from_dict (.dict (PyDict.append
        (.cons "start" (.str "2019-07-14T15:00:00")
          (.cons "end" (.str "2019-07-14T23:30:00")
            (.cons "summary" (.str "X") .nil)))
        (.cons "colour" (.str "blue") .nil)))
      = EventPacket.from_string
          (.tuple (.cons (.str "2019-07-14T15:00:00")
            (.cons (.str "2019-07-14T23:30:00") .nil))) (.str "X") :=
  from_dict_delegates_to_from_string "2019-07-14T15:00:00" "2019-07-14T23:30:00" "X"
    (.cons "colour" (.str "blue") .nil) (by decide)

/-- Claim C5: `from_freebusy` on the nested free/busy mapping of the
claim does not construct an event — after extracting the nested fields
it calls `from_string` with three positional arguments (lines 104-105),
which raises `TypeError`. -/
theorem from_freebusy_raises_type_error :
    EventPacket.from_freebusy (.dict
        (.cons "start" (.dict (.cons "dateTime" (.str "2019-07-14T15:00:00") .nil))
          (.cons "end" (.dict (.cons "dateTime" (.str "2019-07-14T23:30:00") .nil))
            (.cons "summary" (.str "X") .nil))))
      = .error (.typeError "from_string() takes 3 positional arguments but 4 were given") := rfl

/-- Claim C6: comparing an event against any non-`EventPacket` value
raises the `ValueError` of line 119 (the spec's `TypeMismatch`) rather
than returning `False`, and two events compare equal exactly when
their `begin`, `end` and `summary` all compare equal. -/
theorem eventEq_spec :
    (∀ (e : EventPacket) (v : PyTop), v.isEvent = false →
      eventEq e v = .error (.valueError ("Cannot compare EventPacket to " ++ pyTypeName v))) ∧
    (∀ e1 e2 : EventPacket,
      eventEq e1 (.event e2) = .ok true ↔
        (e1.begin = e2.begin ∧ e1.end_ = e2.end_ ∧ e1.summary = e2.summary)) := by
  constructor
  · intro e v h
    cases v with
    | event r => simp [PyTop.isEvent] at h
    | val pv => rfl
  · intro e1 e2
    simp [eventEq, Bool.and_eq_true, decide_eq_true_eq, Prod.mk.injEq, and_assoc]

/-- Claim C6, witness: both halves at concrete inputs. -/
theorem eventEq_spec_witness :
    eventEq evExample (.val (.int 3))
      = .error (.valueError ("Cannot compare EventPacket to " ++ pyTypeName (.val (.int 3)))) ∧
    eventEq evExample (.event evExample) = .ok true :=
  ⟨eventEq_spec.1 evExample (.val (.int 3)) rfl,
   (eventEq_spec.2 evExample evExample).mpr ⟨rfl, rfl, rfl⟩⟩

/-- Claim C7: the constructor guard raises only when the interval is
not a tuple AND the summary is not a str (`not(isinstance(interval,
tuple) or isinstance(summary, str))`), so a well-formed interval with a
non-text summary is accepted and stored, and a non-tuple (list)
interval with a text summary is accepted too — no `ValueError` is
raised on either malformed input, contradicting the claim. -/
theorem init_accepts_malformed_arguments :
    EventPacket.init
        (.tuple (.cons (.dt ⟨2019, 7, 14, 15, 0, 0⟩)
          (.cons (.dt ⟨2019, 7, 14, 23, 30, 0⟩) .nil)))
        (.int 42) default_sample_interval_utc DEFAULT_LOCATION
      = .ok { begin := .dt ⟨2019, 7, 14, 15, 0, 0⟩,
              end_ := .dt ⟨2019, 7, 14, 23, 30, 0⟩,
              summary := .int 42,
              sample_interval_utc := false,
              timezone := "America/Los_Angeles",
              location := DEFAULT_LOCATION } ∧
    EventPacket.init
        (.list (.cons (.dt ⟨2019, 7, 14, 15, 0, 0⟩)
          (.cons (.dt ⟨2019, 7, 14, 23, 30, 0⟩) .nil)))
        (.str "listed") default_sample_interval_utc DEFAULT_LOCATION
      = .ok { begin := .dt ⟨2019, 7, 14, 15, 0, 0⟩,
              end_ := .dt ⟨2019, 7, 14, 23, 30, 0⟩,
              summary := .str "listed",
              sample_interval_utc := false,
              timezone := "America/Los_Angeles",
              location := DEFAULT_LOCATION } :=
  ⟨rfl, rfl⟩

/-- Claim C8: `__lt__` returns `False` for any two events — including
a pair whose intervals are in strict chronological order — and raises
the `ValueError` of line 138 (the spec's `TypeMismatch`) on a
non-`EventPacket` right operand. -/
theorem eventLt_spec :
    (∀ e1 e2 : EventPacket, eventLt e1 (.event e2) = .ok false) ∧
    (∀ (e : EventPacket) (v : PyTop), v.isEvent = false →
      eventLt e v = .error (.valueError ("Cannot compare EventPacket to " ++ pyTypeName v))) := by
  constructor
  · intro e1 e2
    rfl
  · intro e v h
    cases v with
    | event r => simp [PyTop.isEvent] at h
    | val pv => rfl

/-- Claim C8, witness: the January event starts and ends before the
July event, yet the comparison still reports `False`; a string operand
raises. -/
theorem eventLt_spec_witness :
    eventLt evExampleJan (.event evExample) = .ok false ∧
    eventLt evExample (.val (.str "x"))
      = .error (.valueError ("Cannot compare EventPacket to " ++ pyTypeName (.val (.str "x")))) :=
  ⟨eventLt_spec.1 evExampleJan evExample,
   eventLt_spec.2 evExample (.val (.str "x")) rfl⟩

/-- Claim C9: for an event whose stored `begin` and `end` are
datetimes, `time_elapsed` is the difference `end - begin` in whole
seconds (the linearization of the ordinal-day and seconds-within-day
differences the `datetime` subtraction produces). -/
theorem time_elapsed_spec :
    ∀ (e : EventPacket) (a b : DateTime),
      e.begin = .dt a → e.end_ = .dt b →
      time_elapsed e = .ok ((dtSeconds b : Int) - (dtSeconds a : Int)) := by
  intro e a b h1 h2
  obtain ⟨bg, en, sm, si, tz, loc⟩ := e
  simp only at h1 h2
  subst h1
  subst h2
  simp only [time_elapsed, dtSeconds]
  congr 1
  push_cast
  ring

/-- Claim C9, witness: the event from 15:00:00 to 23:30:00 on the same
day reports 30600 seconds. -/
theorem time_elapsed_spec_witness :
    time_elapsed evExample = .ok (30600 : Int) := by
  rw [time_elapsed_spec evExample ⟨2019, 7, 14, 15, 0, 0⟩ ⟨2019, 7, 14, 23, 30, 0⟩ rfl rfl]
  rfl

/-- Claim C10: whenever the configured zone's offset on the given date
is non-negative — so that `strftime('%z')` renders it with a leading
plus sign — the pattern `(\-\d{2})(\d{2})` fails to match and
`utc_offset` raises the `ValueError` of line 199 (the spec's
`FormatError`). -/
theorem utc_offset_nonnegative_raises :
    ∀ (zone : String) (t : DateTime) (m : Int),
      tzUtcOffsetMinutes zone t = some m → 0 ≤ m →
      utc_offset zone t
        = .error (.valueError ("Failed to parse UTC offset of " ++ strftimeZ m)) := by
  intro zone t m h hm
  rw [utc_offset_eq zone t m h]
  have hplus : strftimeZ m = "+" ++ (pad2 (m.natAbs / 60) ++ pad2 (m.natAbs % 60)) := by
    unfold strftimeZ
    rw [if_neg (by omega : ¬ m < 0)]
  rw [hplus, offsetRegexMatch_plus]

/-- Claim C10, witness: the zone `"UTC"` (offset `+0000`) on a
concrete date. -/
theorem utc_offset_nonnegative_raises_witness :
    tzUtcOffsetMinutes "UTC" ⟨2020, 1, 1, 0, 0, 0⟩ = some 0 ∧
    utc_offset "UTC" ⟨2020, 1, 1, 0, 0, 0⟩
      = .error (.valueError ("Failed to parse UTC offset of " ++ strftimeZ 0)) :=
  ⟨rfl, utc_offset_nonnegative_raises "UTC" ⟨2020, 1, 1, 0, 0, 0⟩ 0 rfl (by decide)⟩

end Scheduler
